import Mathlib

/-!
Verification of the resilient network-client core of `zq_data`.

The definitions below are a shallow embedding of the Python source:
- `retryRequest` embeds `AsyncRest._retry_request`
  (src/zq_data/core/asyncrequest.py, lines 51-98; `BaseRestCollector._retry_request`
  in basecollectors.py is textually identical);
- `handleFrame`, `checkConnection`, `connectStep`, `connectSuccessTrace` embed the
  `AsyncWS` WebSocket lifecycle (`_connect`, `_receive`, `_check_connection`,
  `_reconnect`, asyncrequest.py lines 150-216);
- `sendWS` embeds `AsyncWS.send` (asyncrequest.py lines 218-239);
- `registerCallback`, `runCallbacks`, `dispatchTick` embed the subscription
  registry and per-message callback fan-out of
  `BinanceWSCollector.subscribe_tick` / `subscribe_kline`
  (src/zq_data/brokers/binance/ws.py);
- `getKline`, `getTick` embed `ZQData.get_kline` / `ZQData.get_tick`
  (src/zq_data/core/service.py);
- `getPath` embeds `Storage.get_path` (src/zq_data/core/storage.py).

Network effects (sleeps, transport sends, callback invocations) are embedded as
explicit action traces; the outcome of each network operation is an input of the
embedding, so that every control path of the source is represented.
-/

/-! ## REST retry executor (`AsyncRest._retry_request`) -/

/-- Trace of one logical retried request: the sequence of back-off sleeps
performed (in seconds, as exact rationals), the number of attempts sent,
and the final outcome (`ok` response or the raised error). -/
structure RetryTrace (ε ρ : Type) where
  sleeps : List ℚ
  attempts : Nat
  result : Except ε ρ
  deriving Repr

/-- Embedding of `AsyncRest._retry_request` (asyncrequest.py lines 51-98).
`attemptResult k` is the outcome of the `k`-th HTTP attempt (`session.request`
followed by `raise_for_status`): `ok` a response, or `error` the raised
`aiohttp.ClientError`.  On an error with `retry_count < max_retries` the code
sleeps `retry_delay * 2 ** retry_count` and recurses with `retry_count + 1`;
otherwise it re-raises the last error.  The per-attempt rate-limit wait
(`check_rate_limit`, default 0) is not part of the back-off trace. -/
def retryRequest {ε ρ : Type} (attemptResult : Nat → Except ε ρ) (maxRetries : Nat)
    (retryDelay : ℚ) (retryCount : Nat) : RetryTrace ε ρ :=
  match attemptResult retryCount with
  | Except.ok r => ⟨[], 1, Except.ok r⟩
  | Except.error e =>
    if h : retryCount < maxRetries then
      let rest := retryRequest attemptResult maxRetries retryDelay (retryCount + 1)
      ⟨retryDelay * 2 ^ retryCount :: rest.sleeps, rest.attempts + 1, rest.result⟩
    else
      ⟨[], 1, Except.error e⟩
termination_by maxRetries - retryCount
decreasing_by omega

/-! ## WebSocket frame classification (`AsyncWS._receive`) -/

/-- An inbound WebSocket frame, as classified by the `msg.type` dispatch in
`AsyncWS._receive` (asyncrequest.py lines 176-196): TEXT, BINARY, CLOSED,
PING (with its payload), ERROR, or any other type. -/
inductive WSFrame
  | text (payload : String)
  | binaryFrame (payload : List Nat)
  | closedFrame
  | ping (payload : String)
  | errorFrame
  | otherFrame
  deriving Repr, DecidableEq

/-- Which optional callbacks were installed by `AsyncWS.init`
(asyncrequest.py lines 141-145). -/
structure WSCallbacks where
  hasProcess : Bool
  hasProcessBinary : Bool
  hasConnected : Bool
  deriving Repr, DecidableEq

/-- Observable effect of handling one inbound frame in `AsyncWS._receive`. -/
inductive WSAction
  | dispatchText (payload : String)
  | dispatchBinary (payload : List Nat)
  | sendPong (payload : String)
  | reconnect
  | logOnly
  deriving Repr, DecidableEq

/-- Embedding of the per-frame branch of `AsyncWS._receive`
(asyncrequest.py lines 176-196):
TEXT is JSON-decoded (falling back to the raw string) and passed to
`process_callback` when one is set (the decode step is abstracted: the
dispatched value is identified by the frame payload); BINARY goes to
`process_binary_callback` when set; CLOSED triggers `self._reconnect()`;
PING is answered by `self._ws.pong(msg.data)` with the ping's own payload;
ERROR and unhandled types are only logged. -/
def handleFrame (cfg : WSCallbacks) : WSFrame → List WSAction
  | WSFrame.text p => if cfg.hasProcess then [WSAction.dispatchText p] else []
  | WSFrame.binaryFrame p =>
      if cfg.hasProcessBinary then [WSAction.dispatchBinary p] else []
  | WSFrame.closedFrame => [WSAction.reconnect]
  | WSFrame.ping p => [WSAction.sendPong p]
  | WSFrame.errorFrame => [WSAction.logOnly]
  | WSFrame.otherFrame => [WSAction.logOnly]

/-- Whether a frame-handling effect delivers a message to a user callback. -/
def isDispatch : WSAction → Bool
  | WSAction.dispatchText _ => true
  | WSAction.dispatchBinary _ => true
  | _ => false

/-! ## WebSocket connection lifecycle (`AsyncWS._connect` / `_check_connection`) -/

/-- The state of the `self._ws` handle: never assigned (`None`), assigned but
closed, or assigned and open. -/
inductive WsHandle
  | noWs
  | closedWs
  | openWs
  deriving Repr, DecidableEq

/-- What the lifecycle does next after one pass of `_connect`:
re-enter `_connect` (a reconnection attempt, after the fixed delays in the
source), or return, ending the connect task. -/
inductive NextStep
  | reconnectStep
  | terminateStep
  deriving Repr, DecidableEq

/-- Embedding of `AsyncWS._check_connection` (asyncrequest.py lines 198-209):
if `self._ws` is unset it sleeps and calls `_connect` (a reconnection attempt);
if it is set but closed it sleeps and calls `_reconnect`; if it is set and
still open, neither branch fires and the method returns without doing
anything. -/
def checkConnection : WsHandle → NextStep
  | WsHandle.noWs => NextStep.reconnectStep
  | WsHandle.closedWs => NextStep.reconnectStep
  | WsHandle.openWs => NextStep.terminateStep

/-- How one pass of `AsyncWS._connect` (asyncrequest.py lines 150-172) ends:
`ws_connect` raised (`self._ws` keeps its previous value); the
connected-callback raised (socket open); an exception escaped the receive loop
(socket still open); `_receive` handled a CLOSED frame by calling
`_reconnect`; or the receive iterator was exhausted and `_connect` returned. -/
inductive ConnectAttemptEnd
  | establishFailed
  | callbackRaised
  | receiveRaised
  | closeFrameHandled
  | streamEnded
  deriving Repr, DecidableEq

/-- Embedding of the control flow of `AsyncWS._connect`
(asyncrequest.py lines 150-172): any exception in the `try` block is caught,
logged, and after a 1-second delay routed to `_check_connection`, whose action
depends on the `self._ws` handle at that moment; a CLOSED frame inside
`_receive` calls `_reconnect` directly; normal exhaustion of the receive
iterator just returns. -/
def connectStep (prevWs : WsHandle) : ConnectAttemptEnd → NextStep
  | ConnectAttemptEnd.establishFailed => checkConnection prevWs
  | ConnectAttemptEnd.callbackRaised => checkConnection WsHandle.openWs
  | ConnectAttemptEnd.receiveRaised => checkConnection WsHandle.openWs
  | ConnectAttemptEnd.closeFrameHandled => NextStep.reconnectStep
  | ConnectAttemptEnd.streamEnded => NextStep.terminateStep

/-- An event on the successful path of `AsyncWS._connect`: the transport was
established, the connected-callback ran, or `_receive` performed a
frame-handling effect. -/
inductive ConnEvent
  | established
  | connectedCallbackInvoked
  | frameEffect (a : WSAction)
  deriving Repr, DecidableEq

/-- The effects of `AsyncWS._receive` on a connection that yields the given
frames, in order (asyncrequest.py lines 174-196). -/
def receiveTrace (cfg : WSCallbacks) (frames : List WSFrame) : List WSAction :=
  frames.flatMap (handleFrame cfg)

/-- Embedding of the successful path of `AsyncWS._connect`
(asyncrequest.py lines 150-164): `ws_connect` succeeds, then — if
`connected_callback` was installed by `init` — the callback is awaited, and
only then `_receive` starts consuming frames. -/
def connectSuccessTrace (cfg : WSCallbacks) (frames : List WSFrame) : List ConnEvent :=
  ConnEvent.established ::
    ((if cfg.hasConnected then [ConnEvent.connectedCallbackInvoked] else []) ++
      (receiveTrace cfg frames).map ConnEvent.frameEffect)

/-! ## Sending (`AsyncWS.send`) -/

/-- The payload classes distinguished by the `isinstance` tests in
`AsyncWS.send` (asyncrequest.py lines 231-237): `dict`/`list` (sent with
`send_json`), `str` (sent with `send_str`), anything else (sent with
`send_bytes`). -/
inductive SendPayload
  | jsonData
  | strData (s : String)
  | bytesData
  deriving Repr, DecidableEq

/-- Observable effect of `AsyncWS.send`: the `self._connect()` call made when
the socket is absent or closed, or one of the three transmission calls. -/
inductive SendAct
  | connectCall
  | sendJson
  | sendStr (s : String)
  | sendBytes
  deriving Repr, DecidableEq

/-- The test `self._ws and not self._ws.closed` from `AsyncWS.send`. -/
def wsConnected : WsHandle → Bool
  | WsHandle.openWs => true
  | _ => false

/-- Which transmission call the `isinstance` chain of `AsyncWS.send`
selects for a payload. -/
def transmitAct : SendPayload → SendAct
  | SendPayload.jsonData => SendAct.sendJson
  | SendPayload.strData s => SendAct.sendStr s
  | SendPayload.bytesData => SendAct.sendBytes

/-- Embedding of `AsyncWS.send` (asyncrequest.py lines 218-239).  If
`not self._ws or self._ws.closed` it logs a warning and awaits
`self._connect()` once; `afterConnect` is the state of `self._ws` when that
call returns.  It then re-tests the handle: if connected it transmits the
payload, otherwise it raises
`ConnectionError("Failed to establish WebSocket connection")`.
Returns the list of effects and the outcome. -/
def sendWS (ws afterConnect : WsHandle) (data : SendPayload) :
    List SendAct × Except String Unit :=
  let step := if !(wsConnected ws) then ([SendAct.connectCall], afterConnect) else ([], ws)
  if wsConnected step.2 then
    (step.1 ++ [transmitAct data], Except.ok ())
  else
    (step.1, Except.error "Failed to establish WebSocket connection")

/-! ## Subscription registry and dispatch (`BinanceWSCollector`) -/

/-- The `self.callbacks` dict of `BinanceWSCollector`: a topic key (symbol, or
symbol + frequency) mapped to a set of callback handles; a key that was never
inserted maps to the empty set.  Callback handles are identified by natural
numbers.  A Python `set` is a duplicate-free unordered collection; it is
embedded as a duplicate-free list (iteration order of a `set` is unspecified,
so the embedding fixes insertion order as the deterministic-per-run order). -/
def Registry : Type := String → List Nat

/-- Python `set.add`: a no-op when the element is already a member, otherwise
the element joins the set. -/
def addToSet (cb : Nat) (l : List Nat) : List Nat :=
  if cb ∈ l then l else l ++ [cb]

/-- Embedding of the registration step of `BinanceWSCollector.subscribe_tick`
(binance/ws.py lines 32-34) and `subscribe_kline` (lines 83-85):
`if key not in self.callbacks: self.callbacks[key] = set()` followed by
`self.callbacks[key].add(callback)` — i.e. insertion of the callback into the
set stored at the topic key. -/
def registerCallback (r : Registry) (key : String) (cb : Nat) : Registry :=
  fun k => if k = key then addToSet cb (r k) else r k

/-- Embedding of the fan-out loop body of `subscribe_tick`
(binance/ws.py lines 60-67): `for cb in self.callbacks[symbol]: await cb(df)`,
wrapped —together with the whole message-handling block— in
`try ... except Exception: print(...); await self.disconnect(); break`.
`raises cb = true` means awaiting callback `cb` raises.  Returns the
callbacks that were actually invoked, in order, and whether the exception
handler ran (disconnecting the socket and breaking the message loop). -/
def runCallbacks (raises : Nat → Bool) : List Nat → List Nat × Bool
  | [] => ([], false)
  | c :: rest =>
    if raises c then ([c], true)
    else
      let p := runCallbacks raises rest
      (c :: p.1, p.2)

/-- Dispatch of one inbound message for a topic: the callback set registered
for the topic (`self.callbacks[symbol]`) is iterated and each callback is
awaited, subject to the exception handling of `runCallbacks`. -/
def dispatchTick (r : Registry) (symbol : String) (raises : Nat → Bool) :
    List Nat × Bool :=
  runCallbacks raises (r symbol)

/-! ## Service facade (`ZQData`) -/

/-- Result of a `ZQData` data query: the empty `pl.DataFrame()` built on the
fallthrough path, or the frame returned by the delegated collector (identified
by its handle and the query arguments). -/
inductive ZQFrame
  | emptyDF
  | klineDF (cid : Nat) (symbol freq : String)
  | tickDF (cid : Nat) (symbol : String)
  deriving Repr, DecidableEq

/-- Python truthiness of a `str`: the empty string is falsy. -/
def truthyStr (s : String) : Bool := !(s == "")

/-- Embedding of `ZQData.get_kline` (service.py lines 25-33).  The
`self.collectors` dict is a partial map from names to collector handles.
`if collector and collector in self.collectors` delegates to the registered
collector; every other path returns `pl.DataFrame()`.  The second component is
the collectors map after the call (the method never mutates it). -/
def getKline (collectors : String → Option Nat) (symbol freq : String)
    (collector : Option String) : ZQFrame × (String → Option Nat) :=
  match collector with
  | none => (ZQFrame.emptyDF, collectors)
  | some n =>
    if truthyStr n then
      match collectors n with
      | some cid => (ZQFrame.klineDF cid symbol freq, collectors)
      | none => (ZQFrame.emptyDF, collectors)
    else (ZQFrame.emptyDF, collectors)

/-- Embedding of `ZQData.get_tick` (service.py lines 35-43); same shape as
`getKline`. -/
def getTick (collectors : String → Option Nat) (symbol : String)
    (collector : Option String) : ZQFrame × (String → Option Nat) :=
  match collector with
  | none => (ZQFrame.emptyDF, collectors)
  | some n =>
    if truthyStr n then
      match collectors n with
      | some cid => (ZQFrame.tickDF cid symbol, collectors)
      | none => (ZQFrame.emptyDF, collectors)
    else (ZQFrame.emptyDF, collectors)

/-! ## Storage paths (`Storage.get_path`) -/

/-- A `datetime.datetime` value, to the precision `get_path` uses. -/
structure PyDate where
  year : Nat
  month : Nat
  day : Nat
  deriving Repr, DecidableEq

/-- The Python error raised by an operation. -/
inductive PyErr
  | attributeError
  deriving Repr, DecidableEq

/-- Zero-pad a number to two digits, as `%m` / `%d` do. -/
def pad2 (n : Nat) : String :=
  if n < 10 then "0" ++ toString n else toString n

/-- Zero-pad a number to four digits, as `%Y` does. -/
def pad4 (n : Nat) : String :=
  if n < 10 then "000" ++ toString n
  else if n < 100 then "00" ++ toString n
  else if n < 1000 then "0" ++ toString n
  else toString n

/-- The attribute access `date.strftime('%Y%m%d')` on an `Optional[datetime]`:
on `None` it raises `AttributeError` (NoneType has no attribute `strftime`);
otherwise it formats the date. -/
def dateStrftimeYmd : Option PyDate → Except PyErr String
  | none => Except.error PyErr.attributeError
  | some d => Except.ok (pad4 d.year ++ pad2 d.month ++ pad2 d.day)

/-- Embedding of `Storage.get_path` (storage.py lines 17-25).  Both branches
of `if freq:` (Python truthiness: `None` and `""` are falsy) evaluate
`date.strftime('%Y%m%d')` unconditionally; the filename is then joined under
`data_dir / broker / market / data_type`. -/
def getPath (dataDir broker market dataType symbol : String)
    (freq : Option String) (date : Option PyDate) : Except PyErr String := do
  let filename ←
    match freq with
    | some f =>
      if truthyStr f then do
        let ds ← dateStrftimeYmd date
        pure (symbol ++ "_" ++ f ++ "_" ++ ds ++ ".parquet")
      else do
        let ds ← dateStrftimeYmd date
        pure (symbol ++ "_" ++ ds ++ ".parquet")
    | none => do
      let ds ← dateStrftimeYmd date
      pure (symbol ++ "_" ++ ds ++ ".parquet")
  pure (dataDir ++ "/" ++ broker ++ "/" ++ market ++ "/" ++ dataType ++ "/" ++ filename)

/-! ## Helper lemmas -/

/-- When every attempt fails, `retryRequest` starting at `retry_count = c` with
`max_retries = c + d` performs `d` back-off sleeps, `d + 1` attempts, and ends
with the last attempt's error. -/
theorem retryRequest_all_fail {ε ρ : Type} (err : Nat → ε) (b : ℚ) :
    ∀ d c : Nat,
      retryRequest (ρ := ρ) (fun k => Except.error (err k)) (c + d) b c =
        ⟨(List.range d).map (fun k => b * 2 ^ (c + k)), d + 1, Except.error (err (c + d))⟩ := by
  intro d
  induction d with
  | zero =>
    intro c
    rw [retryRequest]
    simp
  | succ d ih =>
    intro c
    have hN : c + (d + 1) = (c + 1) + d := by omega
    rw [hN, retryRequest]
    have hlt : c < (c + 1) + d := by omega
    simp only [dif_pos hlt, ih (c + 1)]
    have hmap : (List.range (d + 1)).map (fun k => b * 2 ^ (c + k)) =
        b * 2 ^ c :: (List.range d).map (fun k => b * 2 ^ ((c + 1) + k)) := by
      rw [List.range_succ_eq_map, List.map_cons, List.map_map]
      have hfun : ((fun k => b * 2 ^ (c + k)) ∘ Nat.succ) =
          fun k => b * 2 ^ ((c + 1) + k) := by
        funext k
        have hk : c + (k + 1) = (c + 1) + k := by omega
        simp [Function.comp, Nat.succ_eq_add_one, hk]
      rw [hfun]
      simp
    rw [hmap]

/-- A fan-out pass in which no callback raises invokes every callback in
order and does not disconnect. -/
theorem runCallbacks_no_raise (raises : Nat → Bool) :
    ∀ l : List Nat, (∀ c ∈ l, raises c = false) → runCallbacks raises l = (l, false) := by
  intro l
  induction l with
  | nil => intro _; rfl
  | cons c rest ih =>
    intro h
    have hc : raises c = false := h c (by simp)
    have hrest := ih (fun x hx => h x (by simp [hx]))
    simp [runCallbacks, hc, hrest]

/-! ## Claim theorems -/

/-- Claim C1: with `max_retries = N` and every attempt failing with a client
error, `_retry_request` makes exactly `N + 1` attempts, sleeping
`retry_delay * 2 ^ k` after the `k`-th failed attempt for `k = 0 .. N - 1`,
and then raises the last error; no further attempts occur. -/
theorem retry_exhausts_attempts_and_delays {ε ρ : Type} (err : Nat → ε) (N : Nat) (b : ℚ) :
    retryRequest (ρ := ρ) (fun k => Except.error (err k)) N b 0 =
      ⟨(List.range N).map (fun k => b * 2 ^ k), N + 1, Except.error (err N)⟩ := by
  have h := retryRequest_all_fail (ρ := ρ) err b N 0
  simpa using h

/-- Claim C2 (refuting evaluation): with callbacks `{0, 1}` registered for
topic `"BTCUSDT"` and callback `0` raising, the fan-out loop of
`subscribe_tick` invokes only callback `0`, skips callback `1`, and runs the
exception handler, which disconnects the WebSocket and breaks the message
loop — the raising callback is not isolated. -/
theorem callback_error_tears_down_dispatch :
    dispatchTick
      (registerCallback (registerCallback (fun _ => ([] : List Nat)) "BTCUSDT" 0) "BTCUSDT" 1)
      "BTCUSDT" (fun c => c == 0) = ([0], true) := by
  decide

/-- Claim C3 (refuting evaluation): an exception raised inside the receive
loop while the socket handle is still open ends the connect pass with
termination, not reconnection — `_check_connection` takes neither of its
branches on an open socket; and an ERROR frame is only logged, with no
transition to reconnection. -/
theorem receive_error_terminates_lifecycle :
    connectStep WsHandle.noWs ConnectAttemptEnd.receiveRaised = NextStep.terminateStep ∧
    connectStep WsHandle.noWs ConnectAttemptEnd.receiveRaised ≠ NextStep.reconnectStep ∧
    handleFrame ⟨true, true, true⟩ WSFrame.errorFrame = [WSAction.logOnly] := by
  refine ⟨rfl, ?_, rfl⟩
  intro h
  cases h

/-- Claim C3 (amended): when an exception is raised while establishing the
connection and the socket handle is absent or closed, the manager retries the
connection after a delay, and a CLOSED frame likewise triggers reconnection;
but an exception raised inside the receive loop (or in the connected-callback)
while the socket is still open terminates the connect pass without
reconnecting, and an ERROR frame is only logged. -/
theorem ws_failure_routing (prev : WsHandle) (h : prev ≠ WsHandle.openWs) :
    connectStep prev ConnectAttemptEnd.establishFailed = NextStep.reconnectStep ∧
    connectStep prev ConnectAttemptEnd.closeFrameHandled = NextStep.reconnectStep ∧
    connectStep prev ConnectAttemptEnd.receiveRaised = NextStep.terminateStep ∧
    connectStep prev ConnectAttemptEnd.callbackRaised = NextStep.terminateStep := by
  cases prev with
  | noWs => exact ⟨rfl, rfl, rfl, rfl⟩
  | closedWs => exact ⟨rfl, rfl, rfl, rfl⟩
  | openWs => exact absurd rfl h

/-- Witness for `ws_failure_routing` at the fresh-connection handle. -/
theorem ws_failure_routing_witness :
    WsHandle.noWs ≠ WsHandle.openWs ∧
    connectStep WsHandle.noWs ConnectAttemptEnd.establishFailed = NextStep.reconnectStep :=
  ⟨by decide, (ws_failure_routing WsHandle.noWs (by decide)).1⟩

/-- Claim C4: a send issued while the socket is absent or closed triggers
exactly one `_connect` call before any transmission; if the socket is still
not open when that call returns, `send` raises
`ConnectionError("Failed to establish WebSocket connection")` and performs no
transmission; if the socket is open, the payload is transmitted. -/
theorem send_disconnected_one_connect (ws after : WsHandle) (data : SendPayload)
    (h : wsConnected ws = false) :
    (sendWS ws after data).1.count SendAct.connectCall = 1 ∧
    (wsConnected after = false →
      (sendWS ws after data).2 = Except.error "Failed to establish WebSocket connection" ∧
      (sendWS ws after data).1 = [SendAct.connectCall]) ∧
    (wsConnected after = true →
      (sendWS ws after data).2 = Except.ok () ∧
      (sendWS ws after data).1 = [SendAct.connectCall, transmitAct data]) := by
  have hne : transmitAct data ≠ SendAct.connectCall := by
    cases data <;> simp [transmitAct]
  refine ⟨?_, ?_, ?_⟩
  · cases hafter : wsConnected after <;>
      simp [sendWS, h, hafter, List.count_cons, hne]
  · intro hafter
    constructor <;> simp [sendWS, h, hafter]
  · intro hafter
    constructor <;> simp [sendWS, h, hafter]

/-- Witness for `send_disconnected_one_connect`: a send on a never-connected
socket whose connect attempt leaves the socket closed. -/
theorem send_disconnected_one_connect_witness :
    wsConnected WsHandle.noWs = false ∧
    (sendWS WsHandle.noWs WsHandle.closedWs (SendPayload.strData "x")).2 =
      Except.error "Failed to establish WebSocket connection" ∧
    (sendWS WsHandle.noWs WsHandle.closedWs (SendPayload.strData "x")).1 =
      [SendAct.connectCall] :=
  ⟨rfl,
    ((send_disconnected_one_connect WsHandle.noWs WsHandle.closedWs
        (SendPayload.strData "x") rfl).2.1 rfl).1,
    ((send_disconnected_one_connect WsHandle.noWs WsHandle.closedWs
        (SendPayload.strData "x") rfl).2.1 rfl).2⟩

/-- Claim C5: on every successful (re)establishment of the transport with a
connected-callback installed, the callback runs immediately after the
transport is established and before any effect of the receive loop — in
particular before any inbound message is dispatched. -/
theorem connected_callback_before_receive (cfg : WSCallbacks) (frames : List WSFrame)
    (h : cfg.hasConnected = true) :
    connectSuccessTrace cfg frames =
      ConnEvent.established :: ConnEvent.connectedCallbackInvoked ::
        (receiveTrace cfg frames).map ConnEvent.frameEffect := by
  simp [connectSuccessTrace, h]

/-- Witness for `connected_callback_before_receive` on a connection receiving
one text frame. -/
theorem connected_callback_before_receive_witness :
    (WSCallbacks.mk true false true).hasConnected = true ∧
    connectSuccessTrace ⟨true, false, true⟩ [WSFrame.text "m"] =
      ConnEvent.established :: ConnEvent.connectedCallbackInvoked ::
        (receiveTrace ⟨true, false, true⟩ [WSFrame.text "m"]).map ConnEvent.frameEffect :=
  ⟨rfl, connected_callback_before_receive ⟨true, false, true⟩ [WSFrame.text "m"] rfl⟩

/-- Claim C6: an inbound PING frame is answered with a pong carrying the
ping's own payload, and handling it produces no dispatch to any user
callback. -/
theorem ping_answered_never_dispatched (cfg : WSCallbacks) (p : String) :
    handleFrame cfg (WSFrame.ping p) = [WSAction.sendPong p] ∧
    (handleFrame cfg (WSFrame.ping p)).all (fun a => !(isDispatch a)) = true :=
  ⟨rfl, rfl⟩

/-- Claim C7: when no registered callback raises, one inbound message for a
topic is delivered exactly once to every callback registered for that topic,
a callback not registered for the topic is never invoked, and the message
loop is not torn down. -/
theorem dispatch_exactly_once (r : Registry) (symbol : String) (raises : Nat → Bool)
    (hnd : (r symbol).Nodup) (h : ∀ cb ∈ r symbol, raises cb = false) :
    (∀ cb ∈ r symbol, (dispatchTick r symbol raises).1.count cb = 1) ∧
    (∀ cb, cb ∉ r symbol → (dispatchTick r symbol raises).1.count cb = 0) ∧
    (dispatchTick r symbol raises).2 = false := by
  have heq := runCallbacks_no_raise raises (r symbol) h
  unfold dispatchTick
  rw [heq]
  refine ⟨?_, ?_, rfl⟩
  · intro cb hcb
    exact List.count_eq_one_of_mem hnd hcb
  · intro cb hcb
    exact List.count_eq_zero_of_not_mem hcb

/-- Witness for `dispatch_exactly_once`: callback `5` registered for topic
`"BTCUSDT"`, no callback raising. -/
theorem dispatch_exactly_once_witness :
    (dispatchTick (registerCallback (fun _ => ([] : List Nat)) "BTCUSDT" 5) "BTCUSDT"
        (fun _ => false)).1.count 5 = 1 ∧
    (dispatchTick (registerCallback (fun _ => ([] : List Nat)) "BTCUSDT" 5) "BTCUSDT"
        (fun _ => false)).2 = false :=
  ⟨(dispatch_exactly_once (registerCallback (fun _ => ([] : List Nat)) "BTCUSDT" 5)
        "BTCUSDT" (fun _ => false) (by decide) (fun _ _ => rfl)).1 5 (by decide),
    (dispatch_exactly_once (registerCallback (fun _ => ([] : List Nat)) "BTCUSDT" 5)
        "BTCUSDT" (fun _ => false) (by decide) (fun _ _ => rfl)).2.2⟩

/-- Claim C8: registering the same callback a second time for the same topic
leaves the registry unchanged — registration has set-membership semantics, so
a doubly-registered callback is still a single member of the topic's set. -/
theorem register_idempotent (r : Registry) (key : String) (cb : Nat) :
    registerCallback (registerCallback r key cb) key cb = registerCallback r key cb := by
  funext k
  by_cases hk : k = key
  · simp only [registerCallback, if_pos hk]
    by_cases hm : cb ∈ r k <;> simp [addToSet, hm]
  · simp [registerCallback, hk]

/-- Claim C9: a `ZQData` kline or tick query whose `collector` argument is
`None` or names no registered collector returns the empty DataFrame, raises
nothing (the embedding is total and returns a plain value), and leaves the
collectors registry unchanged. -/
theorem query_unknown_collector_empty (collectors : String → Option Nat)
    (symbol freq : String) (c : Option String)
    (h : c = none ∨ ∀ n, c = some n → collectors n = none) :
    getKline collectors symbol freq c = (ZQFrame.emptyDF, collectors) ∧
    getTick collectors symbol c = (ZQFrame.emptyDF, collectors) := by
  cases c with
  | none => exact ⟨rfl, rfl⟩
  | some n =>
    have hn : collectors n = none := by
      rcases h with h | h
      · cases h
      · exact h n rfl
    constructor <;> simp [getKline, getTick, hn]

/-- Witness for `query_unknown_collector_empty`: an empty registry queried
with collector name `"binance"`. -/
theorem query_unknown_collector_empty_witness :
    getKline (fun _ => none) "BTCUSDT" "1m" (some "binance") =
      (ZQFrame.emptyDF, fun _ => none) ∧
    getTick (fun _ => none) "BTCUSDT" (some "binance") =
      (ZQFrame.emptyDF, fun _ => none) :=
  query_unknown_collector_empty (fun _ => none) "BTCUSDT" "1m" (some "binance")
    (Or.inr (fun _ _ => rfl))

/-- Claim C10: `Storage.get_path` dereferences `date.strftime` on both
branches, so the default `date = None` raises `AttributeError` for every
combination of the other arguments, while any non-`None` date yields a path —
a non-`None` date is a precondition of the operation. -/
theorem get_path_requires_date (dataDir broker market dataType symbol : String)
    (freq : Option String) :
    getPath dataDir broker market dataType symbol freq none =
      Except.error PyErr.attributeError ∧
    ∀ d : PyDate, ∃ p : String,
      getPath dataDir broker market dataType symbol freq (some d) = Except.ok p := by
  constructor
  · cases freq with
    | none => rfl
    | some f =>
      by_cases hf : truthyStr f = true
      · simp only [getPath, hf, if_pos]
        rfl
      · simp only [getPath, hf, if_neg, Bool.not_eq_true]
        rfl
  · intro d
    cases freq with
    | none => exact ⟨_, rfl⟩
    | some f =>
      by_cases hf : truthyStr f = true
      · simp only [getPath, hf, if_pos]
        exact ⟨_, rfl⟩
      · simp only [getPath, hf, Bool.false_eq_true, if_neg]
        exact ⟨_, rfl⟩
